import Mathlib

/-!
Verification of the button-event classifier in `src/button.c` against its
specification.

The embedding models the interrupt callback `button_pressed`, the timer
callback `timer_button_cb` and the one-shot 3-second timer
(`K_TIMER_DEFINE(timer_button, ...)`, armed with
`k_timer_start(&timer_button, K_SECONDS(3), K_NO_WAIT)`).  Mutable globals
(`longpress_detected` and the timer) become an explicit `ButtonState`
threaded through each callback invocation; `zbus_chan_pub` becomes
appending the message to the list of published events.

Timer semantics: the timer holds an absolute deadline (arm time + 3000 ms);
it is one-shot (`K_NO_WAIT` period).  The timer callback's only observable
effect is setting `longpress_detected`, which is read only inside the edge
callback, so firing is coalesced to just before the next edge callback
whose timestamp has reached the deadline (`fire_timer_if_due`).  A deadline
equal to the edge timestamp counts as expired, i.e. the timer fires before
the edge callback runs, which realises the inclusive 3000 ms threshold.

`button_init` and `button_enable_interrupts` only consult the GPIO
collaborator; the results of those external calls are modelled by a
`GpioEnv` record.
-/

/-- `enum button_evt_type` from `include/button.h`. -/
inductive button_evt_type
  | BUTTON_EVT_UNDEFINED
  | BUTTON_EVT_PRESSED
  | BUTTON_EVT_RELEASED
  | BUTTON_EVT_LONGPRESS
deriving DecidableEq, Repr

/-- `struct msg_button_evt` from `include/button.h`. -/
structure msg_button_evt where
  evt : button_evt_type
deriving DecidableEq, Repr

/-- The long-press threshold: `K_SECONDS(3)` in milliseconds. -/
def LONG_PRESS_MS : Nat := 3000

/-- The mutable state of `button.c`: the global flag `longpress_detected`
and the one-shot timer `timer_button`, represented by its absolute firing
deadline in milliseconds (`none` when stopped or already fired). -/
structure ButtonState where
  longpress_detected : Bool
  timer_deadline : Option Nat
deriving DecidableEq, Repr

/-- State at system start: `static bool longpress_detected = false;` and a
timer that has never been armed. -/
def initState : ButtonState :=
  { longpress_detected := false, timer_deadline := none }

/-- `timer_button_cb`: sets the `longpress_detected` flag. -/
def timer_button_cb (s : ButtonState) : ButtonState :=
  { s with longpress_detected := true }

/-- Kernel timer delivery: if the timer is armed and its deadline has been
reached by time `t`, `timer_button_cb` runs and the one-shot timer is spent. -/
def fire_timer_if_due (t : Nat) (s : ButtonState) : ButtonState :=
  match s.timer_deadline with
  | some d => if d ≤ t then { timer_button_cb s with timer_deadline := none } else s
  | none => s

/-- The interrupt callback `button_pressed` in `button.c`, invoked at time
`t` with the pin reading `pin_active` (`gpio_pin_get_dt(&button)`).
Returns the new state and the list of messages handed to
`zbus_chan_pub` on `chan_button_evt`, in publish order.  The local
`msg` starts as `BUTTON_EVT_UNDEFINED` exactly as in the C code. -/
def button_pressed (pin_active : Bool) (t : Nat) (s : ButtonState) :
    ButtonState × List msg_button_evt :=
  let msg : msg_button_evt := { evt := .BUTTON_EVT_UNDEFINED }
  let (msg, s) :=
    if pin_active then
      ({ evt := .BUTTON_EVT_PRESSED },
       { s with longpress_detected := false,
                timer_deadline := some (t + LONG_PRESS_MS) })
    else
      ({ evt := .BUTTON_EVT_RELEASED },
       { s with timer_deadline := none })
  let published := [msg]
  if s.longpress_detected then
    ({ s with longpress_detected := false },
     published ++ [{ evt := .BUTTON_EVT_LONGPRESS }])
  else
    (s, published)

/-- One physical edge on the `sw0` line: a timestamp (ms, monotonic) and
the logical pin level read inside the callback (`true` = active/pressed). -/
structure Edge where
  t : Nat
  level : Bool
deriving DecidableEq, Repr

/-- Processing of one edge: any due timer fires first (its interrupt has
priority once the deadline passed), then the GPIO callback runs. -/
def run_edge (s : ButtonState) (e : Edge) : ButtonState × List msg_button_evt :=
  button_pressed e.level e.t (fire_timer_if_due e.t s)

/-- Run a sequence of edges, concatenating the published messages. -/
def run_trace (s : ButtonState) : List Edge → ButtonState × List msg_button_evt
  | [] => (s, [])
  | e :: es =>
    let r1 := run_edge s e
    let r2 := run_trace r1.1 es
    (r2.1, r1.2 ++ r2.2)

/-- Results of the external GPIO collaborator calls made during setup:
`gpio_is_ready_dt`, `gpio_pin_configure_dt` and
`gpio_pin_interrupt_configure_dt` (0 = success, negative = error). -/
structure GpioEnv where
  gpio_is_ready : Bool
  gpio_pin_configure_ret : Int
  gpio_pin_interrupt_configure_ret : Int
deriving DecidableEq, Repr

/-- The errno value `ENODEV`. -/
def ENODEV : Int := 19

/-- `button_init` from `button.c`. -/
def button_init (env : GpioEnv) : Int :=
  if !env.gpio_is_ready then
    -ENODEV
  else if env.gpio_pin_configure_ret ≠ 0 then
    env.gpio_pin_configure_ret
  else
    0

/-- `button_enable_interrupts` from `button.c`. -/
def button_enable_interrupts (env : GpioEnv) : Int :=
  if env.gpio_pin_interrupt_configure_ret ≠ 0 then
    env.gpio_pin_interrupt_configure_ret
  else
    0

/-- Checker for the RELEASED-pairing invariant: scanning the published
list, every RELEASED must be preceded by exactly one PRESSED since the
previous RELEASED (or the start); other events do not affect the count. -/
def chk_released : Nat → List msg_button_evt → Bool
  | _, [] => true
  | n, m :: rest =>
    match m.evt with
    | .BUTTON_EVT_PRESSED => chk_released (n + 1) rest
    | .BUTTON_EVT_RELEASED => n == 1 && chk_released 0 rest
    | _ => chk_released n rest

/-- A published list is RELEASED-well-formed when every RELEASED event is
preceded, in publish order, by exactly one PRESSED with no intervening
RELEASED. -/
def released_wf (l : List msg_button_evt) : Bool :=
  chk_released 0 l

/-- An edge trace strictly alternates levels starting from expected level
`b` (so `alternating true tr` means press, release, press, ...). -/
def alternating : Bool → List Edge → Bool
  | _, [] => true
  | b, e :: es => (e.level == b) && alternating (!b) es

/-- Characterization of one callback invocation, by cases on the branch
taken and the `longpress_detected` flag. -/
theorem button_pressed_spec (pin : Bool) (t : Nat) (s : ButtonState) :
    button_pressed pin t s =
      if pin then
        ({ longpress_detected := false, timer_deadline := some (t + LONG_PRESS_MS) },
         [{ evt := .BUTTON_EVT_PRESSED }])
      else if s.longpress_detected then
        ({ longpress_detected := false, timer_deadline := none },
         [{ evt := .BUTTON_EVT_RELEASED }, { evt := .BUTTON_EVT_LONGPRESS }])
      else
        ({ longpress_detected := s.longpress_detected, timer_deadline := none },
         [{ evt := .BUTTON_EVT_RELEASED }]) := by
  cases pin <;> cases h : s.longpress_detected <;>
    simp [button_pressed, h]

/-- A release edge always leaves the system back in the start state: the
flag is cleared (either it was false, or publishing LONGPRESS cleared it)
and the timer is stopped. -/
theorem run_edge_release_resets (s : ButtonState) (t : Nat) :
    (run_edge s ⟨t, false⟩).1 = initState := by
  cases h : (fire_timer_if_due t s).longpress_detected <;>
    simp [run_edge, button_pressed_spec, h, initState]

/-- A press edge leads to a fixed state and output, whatever the prior
state: the flag is force-cleared and the timer re-armed. -/
theorem run_edge_press (s : ButtonState) (t : Nat) :
    run_edge s ⟨t, true⟩ =
      ({ longpress_detected := false, timer_deadline := some (t + LONG_PRESS_MS) },
       [{ evt := .BUTTON_EVT_PRESSED }]) := by
  simp [run_edge, button_pressed_spec]

/-- Claim C1: for every press/release cycle held for `d >= 3000` ms (press
edge at `t0`, release edge at `t1` with `t0 + 3000 <= t1`, so the timer
armed at the press has expired before the release callback runs), the
published sequence of the cycle is exactly
`[PRESSED, RELEASED, LONGPRESS]`: LONGPRESS comes immediately after
RELEASED, never before it and never while the button is still held. -/
theorem long_hold_publishes_pressed_released_longpress
    (s : ButtonState) (t0 t1 : Nat) (h : t0 + LONG_PRESS_MS ≤ t1) :
    (run_trace s [⟨t0, true⟩, ⟨t1, false⟩]).2 =
      [{ evt := .BUTTON_EVT_PRESSED },
       { evt := .BUTTON_EVT_RELEASED },
       { evt := .BUTTON_EVT_LONGPRESS }] := by
  simp [run_trace, run_edge_press, run_edge, button_pressed_spec,
    fire_timer_if_due, timer_button_cb, h]

/-- Witness for C1: scenario B, press at 0, release at 3500 ms. -/
theorem long_hold_publishes_pressed_released_longpress_witness :
    0 + LONG_PRESS_MS ≤ 3500 ∧
    (run_trace initState [⟨0, true⟩, ⟨3500, false⟩]).2 =
      [{ evt := .BUTTON_EVT_PRESSED },
       { evt := .BUTTON_EVT_RELEASED },
       { evt := .BUTTON_EVT_LONGPRESS }] :=
  ⟨by decide,
   long_hold_publishes_pressed_released_longpress initState 0 3500 (by decide)⟩

/-- Claim C2: for every press/release cycle held for `d < 3000` ms (the
release callback runs before the timer deadline), the published sequence
is exactly `[PRESSED, RELEASED]` and no LONGPRESS is published. -/
theorem short_hold_publishes_pressed_released
    (s : ButtonState) (t0 t1 : Nat) (h : t1 < t0 + LONG_PRESS_MS) :
    (run_trace s [⟨t0, true⟩, ⟨t1, false⟩]).2 =
      [{ evt := .BUTTON_EVT_PRESSED },
       { evt := .BUTTON_EVT_RELEASED }] := by
  have h' : ¬ t0 + LONG_PRESS_MS ≤ t1 := by omega
  simp [run_trace, run_edge_press, run_edge, button_pressed_spec,
    fire_timer_if_due, timer_button_cb, h']

/-- Witness for C2: scenario C, press at 0, release at 2999 ms. -/
theorem short_hold_publishes_pressed_released_witness :
    2999 < 0 + LONG_PRESS_MS ∧
    (run_trace initState [⟨0, true⟩, ⟨2999, false⟩]).2 =
      [{ evt := .BUTTON_EVT_PRESSED },
       { evt := .BUTTON_EVT_RELEASED }] :=
  ⟨by decide,
   short_hold_publishes_pressed_released initState 0 2999 (by decide)⟩

/-- Claim C3: the threshold is inclusive: when the release edge arrives
exactly 3000 ms after the press edge, the timer (deadline `t0 + 3000`)
counts as expired before the release callback runs, so the cycle is
classified long and publishes `[PRESSED, RELEASED, LONGPRESS]`. -/
theorem exact_threshold_hold_is_long (s : ButtonState) (t0 : Nat) :
    (run_trace s [⟨t0, true⟩, ⟨t0 + LONG_PRESS_MS, false⟩]).2 =
      [{ evt := .BUTTON_EVT_PRESSED },
       { evt := .BUTTON_EVT_RELEASED },
       { evt := .BUTTON_EVT_LONGPRESS }] := by
  simp [run_trace, run_edge_press, run_edge, button_pressed_spec,
    fire_timer_if_due, timer_button_cb]

/-- Unfolding lemma: running a cons trace. -/
theorem run_trace_cons (s : ButtonState) (e : Edge) (es : List Edge) :
    run_trace s (e :: es) =
      ((run_trace (run_edge s e).1 es).1,
       (run_edge s e).2 ++ (run_trace (run_edge s e).1 es).2) := rfl

/-- `chk_released` on a PRESSED head. -/
theorem chk_released_pressed (n : Nat) (rest : List msg_button_evt) :
    chk_released n ({ evt := .BUTTON_EVT_PRESSED } :: rest) =
      chk_released (n + 1) rest := rfl

/-- `chk_released` on a RELEASED head. -/
theorem chk_released_released (n : Nat) (rest : List msg_button_evt) :
    chk_released n ({ evt := .BUTTON_EVT_RELEASED } :: rest) =
      ((n == 1) && chk_released 0 rest) := rfl

/-- `chk_released` on a LONGPRESS head. -/
theorem chk_released_longpress (n : Nat) (rest : List msg_button_evt) :
    chk_released n ({ evt := .BUTTON_EVT_LONGPRESS } :: rest) =
      chk_released n rest := rfl

/-- Counterexample to claim C4 as stated: the claim quantifies over every
sequence of callback invocations, duplicate edges included, but on the
trace press at 0, press at 10, release at 20, release at 30 the code
publishes `[PRESSED, PRESSED, RELEASED, RELEASED]`: the first RELEASED is
preceded by two PRESSED events and the second by none. -/
theorem duplicate_edges_break_released_pairing :
    released_wf (run_trace initState
      [⟨0, true⟩, ⟨10, true⟩, ⟨20, false⟩, ⟨30, false⟩]).2 = false := by
  decide

/-- Claim C4 (amended): for every sequence of callback invocations whose
pin levels strictly alternate starting with a press edge, every RELEASED
event in the published sequence is preceded, in publish order, by exactly
one PRESSED event with no intervening RELEASED event.  The generalized
statement tracks the count of unmatched PRESSED events: 0 before a press
edge, 1 before a release edge. -/
theorem chk_released_run_trace (tr : List Edge) :
    ∀ (b : Bool) (s : ButtonState), alternating b tr = true →
      chk_released (if b then 0 else 1) (run_trace s tr).2 = true := by
  induction tr with
  | nil =>
    intro b s _
    cases b <;> rfl
  | cons e es ih =>
    intro b s halt
    rw [alternating] at halt
    simp only [Bool.and_eq_true, beq_iff_eq] at halt
    obtain ⟨hlev, hrest⟩ := halt
    rw [run_trace_cons]
    cases b with
    | true =>
      have he : e = ⟨e.t, true⟩ := by cases e; simp_all
      rw [he, run_edge_press]
      simpa [chk_released_pressed] using ih false (run_edge s ⟨e.t, true⟩).1 hrest
    | false =>
      have he : e = ⟨e.t, false⟩ := by cases e; simp_all
      rw [he]
      have hres := ih true (run_edge s ⟨e.t, false⟩).1 hrest
      simp only [run_edge_release_resets, initState] at hres
      cases h : (fire_timer_if_due e.t s).longpress_detected <;>
        simp only [run_edge, button_pressed_spec, h, if_true, if_false,
          Bool.false_eq_true, ite_false, ite_true] <;>
        simpa [chk_released_released, chk_released_longpress] using hres

/-- Witness for the amended C4: a long-hold cycle followed by a short
cycle alternates and its output `[PRESSED, RELEASED, LONGPRESS, PRESSED,
RELEASED]` is RELEASED-well-formed. -/
theorem chk_released_run_trace_witness :
    alternating true [⟨0, true⟩, ⟨4000, false⟩, ⟨5000, true⟩, ⟨5100, false⟩] = true ∧
    chk_released 0 (run_trace initState
      [⟨0, true⟩, ⟨4000, false⟩, ⟨5000, true⟩, ⟨5100, false⟩]).2 = true :=
  ⟨by decide,
   chk_released_run_trace
     [⟨0, true⟩, ⟨4000, false⟩, ⟨5000, true⟩, ⟨5100, false⟩]
     true initState (by decide)⟩

/-- Claim C5: starting a new press unconditionally discards any pending
long-press detection from a previous incomplete cycle: the press path
clears the flag and re-arms the 3-second timer, publishes only PRESSED,
and every behavior after that press edge is identical to starting from the
pristine initial state — so a timer armed during an earlier cycle can
never cause a spurious LONGPRESS during a later cycle. -/
theorem new_press_discards_stale_longpress_state
    (s : ButtonState) (t : Nat) (tr : List Edge) :
    (run_edge s ⟨t, true⟩).1 =
      { longpress_detected := false, timer_deadline := some (t + LONG_PRESS_MS) } ∧
    (run_edge s ⟨t, true⟩).2 = [{ evt := .BUTTON_EVT_PRESSED }] ∧
    run_trace s (⟨t, true⟩ :: tr) = run_trace initState (⟨t, true⟩ :: tr) := by
  refine ⟨by rw [run_edge_press], by rw [run_edge_press], ?_⟩
  rw [run_trace_cons, run_trace_cons, run_edge_press, run_edge_press]

/-- Claim C6: two consecutive full press/release cycles are classified
independently: the four-edge trace publishes exactly what cycle one
publishes from the inherited state followed by what cycle two publishes
from the pristine initial state, and in particular the rapid double press
of scenario D (press 0, release 10, press 20, release 30) yields two
independent `[PRESSED, RELEASED]` pairs. -/
theorem consecutive_cycles_independent
    (s : ButtonState) (t0 t1 t2 t3 : Nat) :
    (run_trace s [⟨t0, true⟩, ⟨t1, false⟩, ⟨t2, true⟩, ⟨t3, false⟩]).2 =
      (run_trace s [⟨t0, true⟩, ⟨t1, false⟩]).2 ++
      (run_trace initState [⟨t2, true⟩, ⟨t3, false⟩]).2 ∧
    (run_trace initState [⟨0, true⟩, ⟨10, false⟩, ⟨20, true⟩, ⟨30, false⟩]).2 =
      [{ evt := .BUTTON_EVT_PRESSED }, { evt := .BUTTON_EVT_RELEASED },
       { evt := .BUTTON_EVT_PRESSED }, { evt := .BUTTON_EVT_RELEASED }] := by
  constructor
  · simp only [run_trace_cons, run_trace, run_edge_release_resets,
      run_edge_press, List.append_assoc, List.append_nil]
  · decide

/-- One callback invocation never publishes UNDEFINED: the `msg`
initialized to `BUTTON_EVT_UNDEFINED` is overwritten in both branches
before any publish. -/
theorem run_edge_no_undefined (s : ButtonState) (e : Edge) :
    ((run_edge s e).2.all fun m =>
      m.evt != button_evt_type.BUTTON_EVT_UNDEFINED) = true := by
  cases hl : e.level <;>
    cases h : (fire_timer_if_due e.t s).longpress_detected <;>
      simp [run_edge, button_pressed_spec, hl, h]

/-- Claim C7: across every trace of callback invocations, from any state,
the UNDEFINED event value is never handed to the publish channel: every
published event is PRESSED, RELEASED or LONGPRESS, and UNDEFINED occurs
only as the initialization value of the local message. -/
theorem undefined_never_published (s : ButtonState) (tr : List Edge) :
    ((run_trace s tr).2.all fun m =>
      m.evt != button_evt_type.BUTTON_EVT_UNDEFINED) = true := by
  induction tr generalizing s with
  | nil => rfl
  | cons e es ih =>
    rw [run_trace_cons, List.all_append, Bool.and_eq_true]
    exact ⟨run_edge_no_undefined s e, ih (run_edge s e).1⟩

/-- Claim C8: setup failures surface as distinct error codes at
initialization time: `button_init` returns 0 on success, `-ENODEV` when
the device is not ready, and the pin-configuration error code otherwise;
`button_enable_interrupts` returns 0 on success and the
interrupt-configuration error code on failure.  Each collaborator result
is consulted once per call and determines the return directly: no retry. -/
theorem setup_error_codes (env : GpioEnv) :
    (env.gpio_is_ready = false → button_init env = -ENODEV) ∧
    (env.gpio_is_ready = true → env.gpio_pin_configure_ret ≠ 0 →
      button_init env = env.gpio_pin_configure_ret) ∧
    (env.gpio_is_ready = true → env.gpio_pin_configure_ret = 0 →
      button_init env = 0) ∧
    (env.gpio_pin_interrupt_configure_ret ≠ 0 →
      button_enable_interrupts env = env.gpio_pin_interrupt_configure_ret) ∧
    (env.gpio_pin_interrupt_configure_ret = 0 →
      button_enable_interrupts env = 0) := by
  refine ⟨fun h1 => ?_, fun h1 h2 => ?_, fun h1 h2 => ?_, fun h1 => ?_, fun h1 => ?_⟩ <;>
    simp [button_init, button_enable_interrupts, h1]
  · simp [h2]
  · simp [h2]

/-- Witness for C8: a not-ready device yields `-ENODEV`; a failing
interrupt configuration call (here returning `-22`, `EINVAL`) is passed
through. -/
theorem setup_error_codes_witness :
    button_init { gpio_is_ready := false, gpio_pin_configure_ret := 0,
                  gpio_pin_interrupt_configure_ret := 0 } = -ENODEV ∧
    button_enable_interrupts { gpio_is_ready := true, gpio_pin_configure_ret := 0,
                               gpio_pin_interrupt_configure_ret := -22 } = -22 :=
  ⟨(setup_error_codes ⟨false, 0, 0⟩).1 rfl,
   (setup_error_codes ⟨true, 0, -22⟩).2.2.2.1 (by decide)⟩

/-- Claim C9: each invocation of `button_pressed` publishes one or two
events: exactly `[PRESSED]` when the pin reads active, exactly
`[RELEASED, LONGPRESS]` when it reads inactive with the long-press flag
set, and exactly `[RELEASED]` otherwise — so the first event is PRESSED
or RELEASED according to the pin, and a second event exists only in the
release branch, is always LONGPRESS, and requires the flag. -/
theorem callback_publishes_one_or_two_events
    (pin : Bool) (t : Nat) (s : ButtonState) :
    (button_pressed pin t s).2 =
      if pin then
        [{ evt := .BUTTON_EVT_PRESSED }]
      else if s.longpress_detected then
        [{ evt := .BUTTON_EVT_RELEASED }, { evt := .BUTTON_EVT_LONGPRESS }]
      else
        [{ evt := .BUTTON_EVT_RELEASED }] := by
  cases pin <;> cases h : s.longpress_detected <;>
    simp [button_pressed_spec, h]

/-- Claim C10: a duplicate press edge restarts the long-press
measurement: on the trace press at `t0`, press again at `t1`, release at
`t2`, a LONGPRESS is published at release exactly when the timer re-armed
at `t1` has expired (`t1 + 3000 <= t2`); the first press time `t0` is
irrelevant, so held duration is measured from the latest press edge. -/
theorem duplicate_press_restarts_measurement
    (s : ButtonState) (t0 t1 t2 : Nat) :
    (run_trace s [⟨t0, true⟩, ⟨t1, true⟩, ⟨t2, false⟩]).2 =
      if t1 + LONG_PRESS_MS ≤ t2 then
        [{ evt := .BUTTON_EVT_PRESSED }, { evt := .BUTTON_EVT_PRESSED },
         { evt := .BUTTON_EVT_RELEASED }, { evt := .BUTTON_EVT_LONGPRESS }]
      else
        [{ evt := .BUTTON_EVT_PRESSED }, { evt := .BUTTON_EVT_PRESSED },
         { evt := .BUTTON_EVT_RELEASED }] := by
  by_cases h : t1 + LONG_PRESS_MS ≤ t2 <;>
    simp [run_trace_cons, run_trace, run_edge_press, run_edge,
      button_pressed_spec, fire_timer_if_due, timer_button_cb, h]
